import Mathlib

/-!
Verification development for the GLiNERSwift export and benchmarking scripts.

Each Python function that the specification describes is embedded as a
computable Lean definition over exact rational arithmetic (`ℚ` stands in for
the scripts' Python floats) and lists.  Theorems at the end of the file settle
the specification's claims against these embeddings.
-/

namespace GLiNERSwift

/-- Python `str.strip` on a list of characters: remove leading and trailing
whitespace. -/
def stripChars (s : List Char) : List Char :=
  ((s.dropWhile Char.isWhitespace).reverse.dropWhile Char.isWhitespace).reverse

/-- Python list slicing `l[a:b]` for nonnegative bounds `a`, `b`. -/
def pySlice {α : Type} (l : List α) (a b : ℕ) : List α :=
  (l.drop a).take (b - a)

/-! ## `Scripts/generate_test_fixtures.py`: span finding and selection -/

/-- The `outputs` dictionary fields consulted by `_find_valid_spans_with_metadata`:
the start/end token-index-to-text-index maps and the raw text tokens. -/
structure SpanOutputs where
  startMap : List ℕ
  endMap : List ℕ
  textTokens : List (List Char)

/-- The `record` dictionary field consulted by `_find_valid_spans_with_metadata`. -/
structure SpanRecord where
  text : List Char

/-- One candidate span tuple
`(text_span, confidence, char_start, char_end, start, end)` as produced by
`_find_valid_spans_with_metadata`. -/
structure Span where
  text : List Char
  confidence : ℚ
  charStart : Int
  charEnd : Int
  tokenStart : ℕ
  tokenEnd : ℕ
deriving Repr, DecidableEq

/-- `end = start + width + 1` from `_find_valid_spans_with_metadata`. -/
def spanEnd (start width : ℕ) : ℕ := start + width + 1

/-- The positional validity test `0 <= start < text_len and end <= text_len`
(the lower bound is automatic for natural numbers). -/
def isValidPosition (start e textLen : ℕ) : Bool :=
  decide (start < textLen) && decide (e ≤ textLen)

/-- `if threshold is None: threshold = 0.5` from
`_find_valid_spans_with_metadata`. -/
def resolveThreshold (threshold : Option ℚ) : ℚ := threshold.getD 0.5

/-- `text_tokens[-text_len:] if text_len > 0 else text_tokens`. -/
def tokensWindow (textTokens : List (List Char)) (textLen : ℕ) : List (List Char) :=
  if 0 < textLen then textTokens.drop (textTokens.length - textLen) else textTokens

/-- Character-offset resolution: when both token-to-character maps are present,
look up `start_map[start]` and `end_map[end - 1]`; any index failure yields
`none` for both offsets (the `except (IndexError, KeyError)` branch). -/
def resolveChar (outputs : SpanOutputs) (start e : ℕ) : Option (ℕ × ℕ) :=
  if outputs.startMap ≠ [] ∧ outputs.endMap ≠ [] then
    match outputs.startMap.get? start, outputs.endMap.get? (e - 1) with
    | some a, some b => some (a, b)
    | _, _ => none
  else none

/-- Body of the candidate loop of `_find_valid_spans_with_metadata` for one
`(start, width)` position with score `score`: positional validity check,
text resolution via character maps or token joining, whitespace strip, and the
final non-empty-text filter. -/
def mkCandidate (record : SpanRecord) (outputs : SpanOutputs)
    (window : List (List Char)) (textLen start width : ℕ) (score : ℚ) :
    Option Span :=
  let e := spanEnd start width
  if isValidPosition start e textLen then
    let resolved := resolveChar outputs start e
    let txt :=
      match resolved with
      | some (a, b) => stripChars (pySlice record.text a b)
      | none => stripChars (List.intercalate [' '] (pySlice window start e))
    if txt ≠ [] then
      some { text := txt
             confidence := score
             charStart := match resolved with
               | some (a, _) => (a : Int)
               | none => -1
             charEnd := match resolved with
               | some (_, b) => (b : Int)
               | none => -1
             tokenStart := start
             tokenEnd := e }
    else none
  else none

/-- `_find_valid_spans_with_metadata`: every `(start, width)` position of the
score grid whose score meets the threshold is turned into a candidate span;
`torch.where` enumerates positions in row-major order, which `enum`/`flatMap`
reproduces. -/
def findValidSpans (fieldScores : List (List ℚ)) (threshold : Option ℚ)
    (record : SpanRecord) (outputs : SpanOutputs) (textLen : ℕ) : List Span :=
  let θ := resolveThreshold threshold
  let window := tokensWindow outputs.textTokens textLen
  fieldScores.enum.flatMap fun sRow =>
    sRow.2.enum.filterMap fun wScore =>
      if θ ≤ wScore.2 then
        mkCandidate record outputs window textLen sRow.1 wScore.1 wScore.2
      else none

/-- The documented span-finding rule only (spec §4.4): score meets threshold,
`end = start + width + 1`, and positional validity — without the
implementation's extra non-empty-text filter.  Used to compare the
specification's words against `findValidSpans`. -/
def documentedCandidates (fieldScores : List (List ℚ)) (threshold : Option ℚ)
    (textLen : ℕ) : List (ℕ × ℕ × ℚ) :=
  let θ := resolveThreshold threshold
  fieldScores.enum.flatMap fun sRow =>
    sRow.2.enum.filterMap fun wScore =>
      if θ ≤ wScore.2 ∧ isValidPosition sRow.1 (spanEnd sRow.1 wScore.1) textLen then
        some (sRow.1, spanEnd sRow.1 wScore.1, wScore.2)
      else none

/-- Two token ranges do not intersect: the Python condition
`token_end <= existing_token_start or token_start >= existing_token_end`. -/
def NonOverlapping (a b : Span) : Prop :=
  a.tokenEnd ≤ b.tokenStart ∨ b.tokenEnd ≤ a.tokenStart

instance (a b : Span) : Decidable (NonOverlapping a b) :=
  inferInstanceAs (Decidable (_ ∨ _))

/-- The inner loop of `_format_span_list_with_metadata`: does the candidate
overlap any already-selected span? -/
def overlapsAny (s : Span) (selected : List Span) : Bool :=
  selected.any fun ex => decide (¬ NonOverlapping s ex)

/-- The greedy selection loop of `_format_span_list_with_metadata`:
walk the sorted candidates, skipping any that overlaps a previously accepted
span (`selected.append` keeps acceptance order). -/
def greedySelect (selected : List Span) : List Span → List Span
  | [] => selected
  | s :: rest =>
    if overlapsAny s selected then greedySelect selected rest
    else greedySelect (selected ++ [s]) rest

/-- Python's stable `sorted(spans, key=lambda x: x[1], reverse=True)`:
a stable sort by confidence descending, modelled by insertion sort with the
relation "has at least as much confidence". -/
def sortByConfidenceDesc (spans : List Span) : List Span :=
  spans.insertionSort fun a b => b.confidence ≤ a.confidence

/-- `_format_span_list_with_metadata`: stable descending sort by confidence,
then greedy selection of non-overlapping spans. -/
def formatSpanList (spans : List Span) : List Span :=
  greedySelect [] (sortByConfidenceDesc spans)

/-! ## `Scripts/benchmarks.py` and `Scripts/prepare_benchmark_data.py` -/

/-- One benchmark sample record as read from the JSONL corpus: required
`id`/`text`/`labels` fields and an optional `threshold`. -/
structure RawSample where
  id : String
  text : List Char
  labels : List String
  threshold : Option ℚ
deriving Repr, DecidableEq

/-- A validated sample as written by `prepare_benchmark_data.validate`:
the threshold is always materialised. -/
structure ValidatedSample where
  id : String
  text : List Char
  labels : List String
  threshold : ℚ
deriving Repr, DecidableEq

/-- `prepare_benchmark_data.validate`: reject a sample without labels,
otherwise materialise the record with `threshold = sample.get("threshold", 0.4)`.
(The missing-required-key check of the Python dict version is vacuous here
because the fields are typed.) -/
def validate (sample : RawSample) : Except String ValidatedSample :=
  if sample.labels = [] then
    Except.error "Sample must include at least one label"
  else
    Except.ok
      { id := sample.id
        text := sample.text
        labels := sample.labels
        threshold := sample.threshold.getD 0.4 }

/-- The per-sample threshold used by `benchmarks.run_benchmarks`:
`sample.get("threshold", 0.3)`. -/
def benchSampleThreshold (sample : RawSample) : ℚ :=
  sample.threshold.getD 0.3

/-- Python's ascending stable `sorted(values)`. -/
def sortAscending (values : List ℚ) : List ℚ :=
  values.insertionSort fun a b => a ≤ b

/-- `benchmarks.percentile`: linear-interpolated rank estimate on the sorted
samples.  `int(rank)` is modelled by `⌊rank⌋.toNat`, which agrees with
Python's truncation for the nonnegative ranks produced by `0 ≤ q`. -/
def percentile (values : List ℚ) (q : ℚ) : ℚ :=
  if values = [] then 0
  else
    let ordered := sortAscending values
    let rank : ℚ := ((ordered.length - 1 : ℕ) : ℚ) * q
    let lower : ℕ := ⌊rank⌋.toNat
    let upper : ℕ := min (ordered.length - 1) (lower + 1)
    if lower = upper then ordered.getD lower 0
    else
      let remainder := rank - (lower : ℚ)
      ordered.getD lower 0 * (1 - remainder) + ordered.getD upper 0 * remainder

/-! ## `Scripts/compare_benchmarks.py` -/

/-- The outcome of `compare_benchmarks.format_speedup`: either `"N/A"` or a
factor rendered as `"...x faster"` / `"...x slower"`. -/
inductive SpeedupOutcome where
  | na : SpeedupOutcome
  | fasterBy (factor : ℚ) : SpeedupOutcome
  | slowerBy (factor : ℚ) : SpeedupOutcome
deriving Repr, DecidableEq

/-- `compare_benchmarks.format_speedup(swift_val, python_val)`:
`"N/A"` when the Python value is zero, otherwise `ratio = python_val / swift_val`,
reported as `ratio` "faster" when `ratio > 1` and as `1/ratio` "slower"
otherwise. -/
def formatSpeedup (swiftVal pythonVal : ℚ) : SpeedupOutcome :=
  if pythonVal = 0 then SpeedupOutcome.na
  else
    let ratio := pythonVal / swiftVal
    if 1 < ratio then SpeedupOutcome.fasterBy ratio
    else SpeedupOutcome.slowerBy (1 / ratio)

/-- The latency rows of `compare_benchmarks.print_comparison` call
`format_speedup(swift_val, python_val)`. -/
def latencySpeedup (pythonVal swiftVal : ℚ) : SpeedupOutcome :=
  formatSpeedup swiftVal pythonVal

/-- The `charactersPerSecond` row of `compare_benchmarks.print_comparison`
swaps the arguments: `format_speedup(python_val, swift_val)`. -/
def throughputSpeedup (pythonVal swiftVal : ℚ) : SpeedupOutcome :=
  formatSpeedup pythonVal swiftVal

/-! ## `Scripts/export_span_head.py`: LSTM export -/

/-- The four per-direction parameter tensors of a `torch.nn.LSTM` direction
(`weight_ih_l0[_reverse]` etc.), with `ℚ` entries. -/
structure LSTMDirection where
  weightIh : List (List ℚ)
  weightHh : List (List ℚ)
  biasIh : List ℚ
  biasHh : List ℚ
deriving Repr, DecidableEq

/-- The serialized form of one direction produced by
`export_span_head.export_lstm_direction`: two weight tensors and a single
bias tensor. -/
structure DirectionExport where
  weightIh : List (List ℚ)
  weightHh : List (List ℚ)
  bias : List ℚ
deriving Repr, DecidableEq

/-- `export_span_head.export_lstm_direction`: the two weight tensors are
written unchanged and the single bias tensor is `bias_ih + bias_hh`
(elementwise tensor addition). -/
def export_lstm_direction (d : LSTMDirection) : DirectionExport :=
  { weightIh := d.weightIh
    weightHh := d.weightHh
    bias := List.zipWith (fun a b => a + b) d.biasIh d.biasHh }

/-- A `torch.nn.LSTM` as consulted by `export_span_head.export_lstm`.
The backward direction's tensors exist exactly when the module is
bidirectional. -/
structure LSTMModule where
  inputSize : ℕ
  hiddenSize : ℕ
  numLayers : ℕ
  bidirectional : Bool
  forwardDir : LSTMDirection
  backwardDir : Option LSTMDirection
deriving Repr, DecidableEq

/-- The metadata record returned by `export_span_head.export_lstm`. -/
structure LSTMExportInfo where
  inputSize : ℕ
  hiddenSize : ℕ
  numLayers : ℕ
  bidirectional : Bool
  forwardDir : DirectionExport
  backwardDir : Option DirectionExport
deriving Repr, DecidableEq

/-- `export_span_head.export_lstm`: raise `RuntimeError` for any module whose
`num_layers` is not 1, before exporting any direction; otherwise export the
forward direction and, when bidirectional, the backward direction. -/
def export_lstm (lstm : LSTMModule) : Except String LSTMExportInfo :=
  if lstm.numLayers ≠ 1 then
    Except.error "Only single-layer LSTMs are supported"
  else
    Except.ok
      { inputSize := lstm.inputSize
        hiddenSize := lstm.hiddenSize
        numLayers := lstm.numLayers
        bidirectional := lstm.bidirectional
        forwardDir := export_lstm_direction lstm.forwardDir
        backwardDir :=
          if lstm.bidirectional then lstm.backwardDir.map export_lstm_direction
          else none }

/-- Whether an `Except` result is the error case. -/
def isError {ε α : Type} : Except ε α → Bool
  | Except.error _ => true
  | Except.ok _ => false

/-! ## `Scripts/convert_to_coreml.py`: attention rewrite and manifest -/

/-- The fields of a fused `torch.nn.MultiheadAttention` consulted by
`ExportableSelfAttention.__init__`: the fused in-projection weight (a matrix
as a list of rows) and bias, plus the output projection. -/
structure FusedAttention where
  embedDim : ℕ
  numHeads : ℕ
  inProjWeight : List (List ℚ)
  inProjBias : List ℚ
  outProjWeight : List (List ℚ)
  outProjBias : List ℚ
deriving Repr, DecidableEq

/-- The parameters of the rewritten attention module: three separate
projections plus the cloned output projection. -/
structure ExportableAttention where
  qProjWeight : List (List ℚ)
  kProjWeight : List (List ℚ)
  vProjWeight : List (List ℚ)
  qProjBias : List ℚ
  kProjBias : List ℚ
  vProjBias : List ℚ
  outProjWeight : List (List ℚ)
  outProjBias : List ℚ
deriving Repr, DecidableEq

/-- `ExportableSelfAttention.__init__`: copy `in_proj[:E]`, `in_proj[E:2E]`
and `in_proj[2E:]` (and the same slices of the bias) into the fresh q/k/v
projections, and clone the output projection. -/
def exportableSelfAttention (att : FusedAttention) : ExportableAttention :=
  let E := att.embedDim
  { qProjWeight := att.inProjWeight.take E
    kProjWeight := pySlice att.inProjWeight E (2 * E)
    vProjWeight := att.inProjWeight.drop (2 * E)
    qProjBias := att.inProjBias.take E
    kProjBias := pySlice att.inProjBias E (2 * E)
    vProjBias := att.inProjBias.drop (2 * E)
    outProjWeight := att.outProjWeight
    outProjBias := att.outProjBias }

/-- The skip configuration flags of `convert_to_coreml.parse_args`. -/
structure SkipFlags where
  skipSpanRep : Bool
  skipClassifier : Bool
  skipCountPredictor : Bool
  skipCountEmbed : Bool
deriving Repr, DecidableEq

/-- The encoder artifact filename chosen by `export_encoder`. -/
def encoderArtifact (precision : String) : String :=
  if precision = "fp32" then "GLiNER2Encoder.mlpackage"
  else "GLiNER2Encoder_fp16.mlpackage"

/-- The `artifacts` map assembled by `convert_to_coreml.main`: the encoder is
always exported; each optional head contributes its manifest entry exactly
when its skip flag is off. -/
def exportArtifacts (flags : SkipFlags) (precision : String) :
    List (String × String) :=
  [("encoder", encoderArtifact precision)]
  ++ (if flags.skipSpanRep then [] else [("span_rep", "GLiNER2SpanRep.mlpackage")])
  ++ (if flags.skipClassifier then [] else [("classifier", "GLiNER2Classifier.mlpackage")])
  ++ (if flags.skipCountPredictor then [] else
      [("count_predictor", "GLiNER2CountPredictor.mlpackage")])
  ++ (if flags.skipCountEmbed then [] else
      [("count_embed", "GLiNER2CountEmbed.mlpackage")])

/-! ## Concrete inputs used by the claim theorems and their witnesses -/

/-- The "at least as confident" relation that `sorted(..., reverse=True)`
orders by. -/
def confidenceGe (a b : Span) : Prop := b.confidence ≤ a.confidence

instance (a b : Span) : Decidable (confidenceGe a b) :=
  inferInstanceAs (Decidable (_ ≤ _))

/-- The candidate with token range `[0, 3)` and confidence 0.9 from the
overlap-rejection example. -/
def spanHigh : Span := ⟨['a'], 0.9, -1, -1, 0, 3⟩

/-- The candidate with token range `[2, 5)` and confidence 0.7 from the
overlap-rejection example. -/
def spanLow : Span := ⟨['b'], 0.7, -1, -1, 2, 5⟩

/-- First of two equal-confidence, non-overlapping candidates (tie-break
stability check). -/
def spanTieA : Span := ⟨['c'], 0.5, -1, -1, 0, 1⟩

/-- Second of two equal-confidence, non-overlapping candidates (tie-break
stability check). -/
def spanTieB : Span := ⟨['d'], 0.5, -1, -1, 1, 2⟩

/-- The span produced on a one-token text with score grid `[[1]]` and
character maps `[0]`/`[1]`. -/
def spanH : Span := ⟨['h'], 1, 0, 1, 0, 1⟩

/-- A direction with no tensors, for building concrete LSTM modules. -/
def dirZero : LSTMDirection := ⟨[], [], [], []⟩

/-- A two-layer LSTM module, which the exporter must reject. -/
def lstmTwo : LSTMModule := ⟨4, 4, 2, false, dirZero, none⟩

/-- A fused attention module with embedding dimension 1 and fully known
parameters. -/
def attW : FusedAttention := ⟨1, 1, [[1], [2], [3]], [10, 20, 30], [], []⟩

/-! ## Helper lemmas -/

theorem mkCandidate_some {record : SpanRecord} {outputs : SpanOutputs}
    {window : List (List Char)} {textLen start width : ℕ} {score : ℚ} {s : Span}
    (h : mkCandidate record outputs window textLen start width score = some s) :
    s.tokenStart = start ∧ s.tokenEnd = spanEnd start width ∧
    start < textLen ∧ spanEnd start width ≤ textLen ∧
    s.text ≠ [] ∧ s.confidence = score := by
  simp only [mkCandidate] at h
  split at h
  case isTrue hv =>
    split at h
    case isTrue hne =>
      obtain rfl : _ = s := Option.some.inj h
      simp only [isValidPosition, Bool.and_eq_true, decide_eq_true_eq] at hv
      exact ⟨rfl, rfl, hv.1, hv.2, hne, rfl⟩
    case isFalse hne => exact absurd h (by simp)
  case isFalse hv => exact absurd h (by simp)

theorem findValidSpans_mem {fieldScores : List (List ℚ)} {threshold : Option ℚ}
    {record : SpanRecord} {outputs : SpanOutputs} {textLen : ℕ} {s : Span}
    (h : s ∈ findValidSpans fieldScores threshold record outputs textLen) :
    ∃ start width score,
      resolveThreshold threshold ≤ score ∧
      mkCandidate record outputs (tokensWindow outputs.textTokens textLen)
        textLen start width score = some s := by
  simp only [findValidSpans, List.mem_flatMap, List.mem_filterMap] at h
  obtain ⟨⟨i, row⟩, _, ⟨j, sc⟩, _, hite⟩ := h
  by_cases hth : resolveThreshold threshold ≤ sc
  · exact ⟨i, j, sc, hth, by simpa [hth] using hite⟩
  · simp [hth] at hite

theorem nonOverlapping_symm {a b : Span} (h : NonOverlapping a b) :
    NonOverlapping b a := h.symm

theorem overlapsAny_eq_false {s : Span} {selected : List Span}
    (h : overlapsAny s selected = false) :
    ∀ ex ∈ selected, NonOverlapping s ex := by
  intro ex hex
  have := List.any_eq_false.mp h ex hex
  simpa using this

theorem greedySelect_pairwise :
    ∀ (rest acc : List Span), acc.Pairwise NonOverlapping →
      (greedySelect acc rest).Pairwise NonOverlapping := by
  intro rest
  induction rest with
  | nil => intro acc hacc; simpa [greedySelect] using hacc
  | cons s rest ih =>
    intro acc hacc
    by_cases hover : overlapsAny s acc
    · simpa [greedySelect, hover] using ih acc hacc
    · have hfalse : overlapsAny s acc = false := by
        simpa using hover
      have hsel := overlapsAny_eq_false hfalse
      have happ : (acc ++ [s]).Pairwise NonOverlapping := by
        refine List.pairwise_append.mpr ⟨hacc, List.pairwise_singleton _ _, ?_⟩
        intro a ha b hb
        rw [List.mem_singleton] at hb
        subst hb
        exact nonOverlapping_symm (hsel a ha)
      simpa [greedySelect, hfalse] using ih (acc ++ [s]) happ

theorem sortByConfidenceDesc_sorted (spans : List Span) :
    (sortByConfidenceDesc spans).Sorted confidenceGe := by
  haveI : IsTotal Span confidenceGe := ⟨fun a b => le_total b.confidence a.confidence⟩
  haveI : IsTrans Span confidenceGe := ⟨fun _ _ _ h1 h2 => le_trans h2 h1⟩
  exact List.sorted_insertionSort _ spans

theorem zipWith_add_getD :
    ∀ (a b : List ℚ) (i : ℕ), i < (List.zipWith (fun x y => x + y) a b).length →
      (List.zipWith (fun x y => x + y) a b).getD i 0 =
        a.getD i 0 + b.getD i 0 := by
  intro a
  induction a with
  | nil => intro b i h; simp at h
  | cons x xs ih =>
    intro b i h
    cases b with
    | nil => simp at h
    | cons y ys =>
      cases i with
      | zero => simp [List.getD]
      | succ j =>
        simp only [List.zipWith_cons_cons, List.length_cons] at h
        simpa [List.getD] using ih ys j (Nat.lt_of_succ_lt_succ h)

/-! ## Claim theorems -/

/-- C1: every span emitted by `findValidSpans` sits at a candidate position
with `end = start + width + 1`, `0 ≤ start < text_len` and `end ≤ text_len`;
on a text of length 1 the candidate `(start 0, width 0)` is positionally valid
(`end = 1 ≤ 1`) while `(start 0, width 1 = text_length)` is not
(`end = 2 > 1`). -/
theorem claim_C1_span_validity :
    (∀ (fieldScores : List (List ℚ)) (threshold : Option ℚ)
        (record : SpanRecord) (outputs : SpanOutputs) (textLen : ℕ) (s : Span),
        s ∈ findValidSpans fieldScores threshold record outputs textLen →
          (∃ width, s.tokenEnd = spanEnd s.tokenStart width) ∧
          s.tokenStart < textLen ∧ s.tokenEnd ≤ textLen) ∧
    isValidPosition 0 (spanEnd 0 0) 1 = true ∧
    isValidPosition 0 (spanEnd 0 1) 1 = false := by
  refine ⟨?_, by decide, by decide⟩
  intro fs θ rec outs tl s hs
  obtain ⟨start, width, score, _, hmk⟩ := findValidSpans_mem hs
  obtain ⟨h1, h2, h3, h4, -, -⟩ := mkCandidate_some hmk
  exact ⟨⟨width, by rw [h1, h2]⟩, h1 ▸ h3, h2 ▸ h4⟩

/-- Witness for C1: the concrete span emitted on a one-token text satisfies
the validity bounds. -/
theorem claim_C1_span_validity_witness :
    spanH ∈ findValidSpans [[1]] (some 1) ⟨['h']⟩ ⟨[0], [1], []⟩ 1 ∧
    ((∃ width, spanH.tokenEnd = spanEnd spanH.tokenStart width) ∧
      spanH.tokenStart < 1 ∧ spanH.tokenEnd ≤ 1) := by
  have hmem : spanH ∈ findValidSpans [[1]] (some 1) ⟨['h']⟩ ⟨[0], [1], []⟩ 1 := by
    norm_num [findValidSpans, resolveThreshold, mkCandidate, isValidPosition,
      spanEnd, resolveChar, tokensWindow, stripChars, pySlice, spanH,
      List.filterMap_cons, List.flatMap_cons, List.dropWhile_cons,
      show ('h'.isWhitespace = false) from by decide]
  exact ⟨hmem,
    claim_C1_span_validity.1 [[1]] (some 1) ⟨['h']⟩ ⟨[0], [1], []⟩ 1 spanH hmem⟩

/-- C2: `formatSpanList` sorts the candidates by confidence descending with a
stable sort (a permutation of the input that is sorted under `confidenceGe`,
with equal-confidence candidates kept in input order, as the tie example
shows) and then greedily selects candidates whose token ranges do not
intersect any already-selected span; on the ranges `[0,3)`/`[2,5)` with
confidences 0.9/0.7, only the 0.9 span survives. -/
theorem claim_C2_greedy_selection :
    (∀ spans : List Span, (sortByConfidenceDesc spans).Sorted confidenceGe) ∧
    (∀ spans : List Span, (sortByConfidenceDesc spans).Perm spans) ∧
    (∀ spans : List Span, (formatSpanList spans).Pairwise NonOverlapping) ∧
    formatSpanList [spanHigh, spanLow] = [spanHigh] ∧
    formatSpanList [spanTieA, spanTieB] = [spanTieA, spanTieB] := by
  refine ⟨sortByConfidenceDesc_sorted,
    fun spans => List.perm_insertionSort _ spans,
    fun spans => greedySelect_pairwise _ [] List.Pairwise.nil, ?_, ?_⟩
  · norm_num [formatSpanList, sortByConfidenceDesc, List.insertionSort,
      List.orderedInsert, greedySelect, overlapsAny, NonOverlapping,
      spanHigh, spanLow]
  · norm_num [formatSpanList, sortByConfidenceDesc, List.insertionSort,
      List.orderedInsert, greedySelect, overlapsAny, NonOverlapping,
      spanTieA, spanTieB]

/-- C3 counterexample: the benchmark runner substitutes 0.3, not 0.4, for a
sample without a threshold field, refuting the claim that both scripts
substitute 0.4. -/
theorem claim_C3_counterexample :
    benchSampleThreshold ⟨"business_short", [], ["person"], none⟩ = 0.3 ∧
    benchSampleThreshold ⟨"business_short", [], ["person"], none⟩ ≠ 0.4 := by
  norm_num [benchSampleThreshold]

/-- C3 (amended): for a sample without a threshold field, the
fixture-preparation validator substitutes 0.4 while the benchmark runner
substitutes 0.3. -/
theorem claim_C3_amended_defaults :
    ∀ (i : String) (t : List Char) (ls : List String), ls ≠ [] →
      validate ⟨i, t, ls, none⟩ = Except.ok ⟨i, t, ls, 0.4⟩ ∧
      benchSampleThreshold ⟨i, t, ls, none⟩ = 0.3 := by
  intro i t ls hls
  constructor
  · simp [validate, hls]
  · rfl

/-- Witness for the amended C3 at a concrete sample. -/
theorem claim_C3_amended_defaults_witness :
    validate ⟨"s", [], ["l"], none⟩ = Except.ok ⟨"s", [], ["l"], 0.4⟩ ∧
    benchSampleThreshold ⟨"s", [], ["l"], none⟩ = 0.3 :=
  claim_C3_amended_defaults "s" [] ["l"] (by decide)

/-- C4: the single serialized bias of an exported LSTM direction is the
elementwise sum of the direction's input bias and hidden bias; with input
bias `[1, 2]` and hidden bias `[3, 4]` the serialized bias is `[4, 6]`. -/
theorem claim_C4_bias_sum :
    (∀ (d : LSTMDirection) (i : ℕ), i < (export_lstm_direction d).bias.length →
        (export_lstm_direction d).bias.getD i 0 =
          d.biasIh.getD i 0 + d.biasHh.getD i 0) ∧
    (export_lstm_direction ⟨[], [], [1, 2], [3, 4]⟩).bias = [4, 6] := by
  constructor
  · intro d i h
    exact zipWith_add_getD d.biasIh d.biasHh i h
  · norm_num [export_lstm_direction]

/-- Witness for C4 at index 0 of the synthetic direction. -/
theorem claim_C4_bias_sum_witness :
    0 < (export_lstm_direction ⟨[], [], [1, 2], [3, 4]⟩).bias.length ∧
    (export_lstm_direction ⟨[], [], [1, 2], [3, 4]⟩).bias.getD 0 0 =
      ([1, 2] : List ℚ).getD 0 0 + ([3, 4] : List ℚ).getD 0 0 :=
  ⟨by decide, claim_C4_bias_sum.1 ⟨[], [], [1, 2], [3, 4]⟩ 0 (by decide)⟩

/-- C5: when the fused in-projection weight and bias have `3 * E` rows, the
rewritten attention module's q/k/v projections have `E` rows each and their
entries are the rows `[0, E)`, `[E, 2E)` and `[2E, 3E)` of the fused
parameters. -/
theorem claim_C5_qkv_split :
    ∀ att : FusedAttention,
      att.inProjWeight.length = 3 * att.embedDim →
      att.inProjBias.length = 3 * att.embedDim →
      ((exportableSelfAttention att).qProjWeight.length = att.embedDim ∧
       (exportableSelfAttention att).kProjWeight.length = att.embedDim ∧
       (exportableSelfAttention att).vProjWeight.length = att.embedDim ∧
       (exportableSelfAttention att).qProjBias.length = att.embedDim ∧
       (exportableSelfAttention att).kProjBias.length = att.embedDim ∧
       (exportableSelfAttention att).vProjBias.length = att.embedDim) ∧
      (∀ i, i < att.embedDim →
        ((exportableSelfAttention att).qProjWeight[i]? = att.inProjWeight[i]? ∧
         (exportableSelfAttention att).kProjWeight[i]? =
           att.inProjWeight[att.embedDim + i]? ∧
         (exportableSelfAttention att).vProjWeight[i]? =
           att.inProjWeight[2 * att.embedDim + i]?) ∧
        ((exportableSelfAttention att).qProjBias[i]? = att.inProjBias[i]? ∧
         (exportableSelfAttention att).kProjBias[i]? =
           att.inProjBias[att.embedDim + i]? ∧
         (exportableSelfAttention att).vProjBias[i]? =
           att.inProjBias[2 * att.embedDim + i]?)) := by
  intro att hw hb
  have h2 : 2 * att.embedDim - att.embedDim = att.embedDim := by omega
  constructor
  · simp [exportableSelfAttention, pySlice, hw, hb, h2]
    omega
  · intro i hi
    have hqw : (att.inProjWeight.take att.embedDim)[i]? = att.inProjWeight[i]? :=
      List.getElem?_take_of_lt hi
    have hkw : (pySlice att.inProjWeight att.embedDim (2 * att.embedDim))[i]? =
        att.inProjWeight[att.embedDim + i]? := by
      rw [pySlice, h2, List.getElem?_take_of_lt hi, List.getElem?_drop]
    have hvw : (att.inProjWeight.drop (2 * att.embedDim))[i]? =
        att.inProjWeight[2 * att.embedDim + i]? := List.getElem?_drop ..
    have hqb : (att.inProjBias.take att.embedDim)[i]? = att.inProjBias[i]? :=
      List.getElem?_take_of_lt hi
    have hkb : (pySlice att.inProjBias att.embedDim (2 * att.embedDim))[i]? =
        att.inProjBias[att.embedDim + i]? := by
      rw [pySlice, h2, List.getElem?_take_of_lt hi, List.getElem?_drop]
    have hvb : (att.inProjBias.drop (2 * att.embedDim))[i]? =
        att.inProjBias[2 * att.embedDim + i]? := List.getElem?_drop ..
    exact ⟨⟨hqw, hkw, hvw⟩, ⟨hqb, hkb, hvb⟩⟩

/-- Witness for C5 on the dimension-1 synthetic module. -/
theorem claim_C5_qkv_split_witness :
    attW.inProjWeight.length = 3 * attW.embedDim ∧
    attW.inProjBias.length = 3 * attW.embedDim ∧
    ((exportableSelfAttention attW).qProjWeight[0]? = attW.inProjWeight[0]? ∧
     (exportableSelfAttention attW).kProjWeight[0]? =
       attW.inProjWeight[attW.embedDim + 0]? ∧
     (exportableSelfAttention attW).vProjWeight[0]? =
       attW.inProjWeight[2 * attW.embedDim + 0]?) :=
  ⟨by decide, by decide,
    ((claim_C5_qkv_split attW (by decide) (by decide)).2 0 (by decide)).1⟩

/-- C6: for every non-empty sample list, `percentile` returns
`ordered[lower] * (1 - remainder) + ordered[upper] * remainder` where
`rank = (n - 1) * q`, `lower = int(rank)`, `upper = min (n - 1) (lower + 1)`
and `remainder = rank - lower`; on `[10, 20, 30, 40, 100]` at `q = 0.95`
this is the value at rank 3.8, namely 88. -/
theorem claim_C6_percentile_interpolation :
    (∀ (values : List ℚ) (q : ℚ), values ≠ [] →
        percentile values q =
          (sortAscending values).getD
              ⌊((((sortAscending values).length - 1 : ℕ) : ℚ) * q)⌋.toNat 0 *
            (1 - ((((sortAscending values).length - 1 : ℕ) : ℚ) * q -
              (⌊((((sortAscending values).length - 1 : ℕ) : ℚ) * q)⌋.toNat : ℚ))) +
          (sortAscending values).getD
              (min ((sortAscending values).length - 1)
                (⌊((((sortAscending values).length - 1 : ℕ) : ℚ) * q)⌋.toNat + 1)) 0 *
            ((((sortAscending values).length - 1 : ℕ) : ℚ) * q -
              (⌊((((sortAscending values).length - 1 : ℕ) : ℚ) * q)⌋.toNat : ℚ))) ∧
    percentile [10, 20, 30, 40, 100] 0.95 = 88 := by
  constructor
  · intro values q hne
    simp only [percentile, if_neg hne]
    split
    case isTrue heq => rw [← heq]; ring
    case isFalse => rfl
  · norm_num [percentile, sortAscending, List.insertionSort, List.orderedInsert]
    norm_num [show ((3 : ℤ)).toNat = 3 from rfl, List.getElem_cons_succ,
      List.getElem_cons_zero]
    exact List.cons_ne_nil _ _

/-- Witness for C6's interpolation formula at the sample list of the claim. -/
theorem claim_C6_percentile_interpolation_witness :
    ([10, 20, 30, 40, 100] : List ℚ) ≠ [] ∧
    percentile [10, 20, 30, 40, 100] 0.95 =
      (sortAscending [10, 20, 30, 40, 100]).getD
          ⌊((((sortAscending [10, 20, 30, 40, 100]).length - 1 : ℕ) : ℚ) * 0.95)⌋.toNat 0 *
        (1 - ((((sortAscending [10, 20, 30, 40, 100]).length - 1 : ℕ) : ℚ) * 0.95 -
          (⌊((((sortAscending [10, 20, 30, 40, 100]).length - 1 : ℕ) : ℚ) * 0.95)⌋.toNat : ℚ))) +
      (sortAscending [10, 20, 30, 40, 100]).getD
          (min ((sortAscending [10, 20, 30, 40, 100]).length - 1)
            (⌊((((sortAscending [10, 20, 30, 40, 100]).length - 1 : ℕ) : ℚ) * 0.95)⌋.toNat + 1)) 0 *
        ((((sortAscending [10, 20, 30, 40, 100]).length - 1 : ℕ) : ℚ) * 0.95 -
          (⌊((((sortAscending [10, 20, 30, 40, 100]).length - 1 : ℕ) : ℚ) * 0.95)⌋.toNat : ℚ)) :=
  ⟨by decide,
    claim_C6_percentile_interpolation.1 [10, 20, 30, 40, 100] 0.95 (by decide)⟩

/-- C7: the latency rows report `python / swift` (lower latency wins) while
the characters-per-second row swaps the arguments so the ratio becomes
`swift / python`; at `python = 100` chars/sec and `swift = 50` chars/sec the
reported outcome is "2x slower" for Swift, i.e. Python wins by a factor of
2. -/
theorem claim_C7_speedup_inversion :
    (∀ pythonVal swiftVal : ℚ, pythonVal ≠ 0 →
        latencySpeedup pythonVal swiftVal =
          if 1 < pythonVal / swiftVal then
            SpeedupOutcome.fasterBy (pythonVal / swiftVal)
          else SpeedupOutcome.slowerBy (swiftVal / pythonVal)) ∧
    (∀ pythonVal swiftVal : ℚ, swiftVal ≠ 0 →
        throughputSpeedup pythonVal swiftVal =
          if 1 < swiftVal / pythonVal then
            SpeedupOutcome.fasterBy (swiftVal / pythonVal)
          else SpeedupOutcome.slowerBy (pythonVal / swiftVal)) ∧
    throughputSpeedup 100 50 = SpeedupOutcome.slowerBy 2 ∧
    latencySpeedup 100 50 = SpeedupOutcome.fasterBy 2 := by
  refine ⟨?_, ?_, ?_, ?_⟩
  · intro py sw hpy
    simp [latencySpeedup, formatSpeedup, hpy, one_div_div]
  · intro py sw hsw
    simp [throughputSpeedup, formatSpeedup, hsw, one_div_div]
  · norm_num [throughputSpeedup, formatSpeedup]
  · norm_num [latencySpeedup, formatSpeedup]

/-- Witness for C7's general formulas at `python = 100`, `swift = 50`. -/
theorem claim_C7_speedup_inversion_witness :
    (latencySpeedup 100 50 =
      if 1 < (100 : ℚ) / 50 then SpeedupOutcome.fasterBy ((100 : ℚ) / 50)
      else SpeedupOutcome.slowerBy ((50 : ℚ) / 100)) ∧
    (throughputSpeedup 100 50 =
      if 1 < (50 : ℚ) / 100 then SpeedupOutcome.fasterBy ((50 : ℚ) / 100)
      else SpeedupOutcome.slowerBy ((100 : ℚ) / 50)) :=
  ⟨claim_C7_speedup_inversion.1 100 50 (by norm_num),
    claim_C7_speedup_inversion.2.1 100 50 (by norm_num)⟩

/-- C8: for every skip-flag configuration, the manifest's artifacts map keeps
the encoder entry and contains an optional head's entry exactly when that
head's skip flag is off. -/
theorem claim_C8_manifest_skips :
    ∀ (flags : SkipFlags) (precision : String),
      List.lookup "encoder" (exportArtifacts flags precision) =
        some (encoderArtifact precision) ∧
      (List.lookup "span_rep" (exportArtifacts flags precision) =
        if flags.skipSpanRep then none else some "GLiNER2SpanRep.mlpackage") ∧
      (List.lookup "classifier" (exportArtifacts flags precision) =
        if flags.skipClassifier then none else some "GLiNER2Classifier.mlpackage") ∧
      (List.lookup "count_predictor" (exportArtifacts flags precision) =
        if flags.skipCountPredictor then none
        else some "GLiNER2CountPredictor.mlpackage") ∧
      (List.lookup "count_embed" (exportArtifacts flags precision) =
        if flags.skipCountEmbed then none
        else some "GLiNER2CountEmbed.mlpackage") := by
  intro flags p
  obtain ⟨a, b, c, d⟩ := flags
  cases a <;> cases b <;> cases c <;> cases d <;>
    simp [exportArtifacts, encoderArtifact, List.lookup]

/-- C9: for any LSTM module with at least one layer, `export_lstm` errors
exactly when the module has more than one layer, and in that case returns
the fatal diagnostic without exporting any direction. -/
theorem claim_C9_multilayer_fatal :
    ∀ lstm : LSTMModule, 1 ≤ lstm.numLayers →
      (isError (export_lstm lstm) = true ↔ 1 < lstm.numLayers) ∧
      (1 < lstm.numLayers →
        export_lstm lstm = Except.error "Only single-layer LSTMs are supported") := by
  intro lstm h1
  by_cases h : lstm.numLayers = 1
  · simp [export_lstm, h, isError]
  · have hgt : 1 < lstm.numLayers := lt_of_le_of_ne h1 (Ne.symm h)
    simp [export_lstm, h, isError, hgt]

/-- Witness for C9 on a concrete two-layer module. -/
theorem claim_C9_multilayer_fatal_witness :
    (isError (export_lstm lstmTwo) = true ↔ 1 < lstmTwo.numLayers) ∧
    (1 < lstmTwo.numLayers →
      export_lstm lstmTwo = Except.error "Only single-layer LSTMs are supported") :=
  claim_C9_multilayer_fatal lstmTwo (by decide)

/-- C10: every span emitted by `findValidSpans` has non-empty stripped text,
and on a concrete input whose only positionally valid candidate resolves to
empty text, the documented rule admits strictly more candidates than the
implementation emits. -/
theorem claim_C10_empty_text_filter :
    (∀ (fieldScores : List (List ℚ)) (threshold : Option ℚ)
        (record : SpanRecord) (outputs : SpanOutputs) (textLen : ℕ) (s : Span),
        s ∈ findValidSpans fieldScores threshold record outputs textLen →
          s.text ≠ []) ∧
    (findValidSpans [[1]] none ⟨[]⟩ ⟨[], [], [[]]⟩ 1).length <
      (documentedCandidates [[1]] none 1).length := by
  constructor
  · intro fs θ rec outs tl s hs
    obtain ⟨start, width, score, _, hmk⟩ := findValidSpans_mem hs
    exact (mkCandidate_some hmk).2.2.2.2.1
  · norm_num [findValidSpans, documentedCandidates, resolveThreshold,
      mkCandidate, isValidPosition, spanEnd, resolveChar, tokensWindow,
      stripChars, pySlice, List.filterMap_cons, List.flatMap_cons,
      List.intercalate, List.intersperse]

/-- Witness for C10: the concrete emitted span has non-empty text. -/
theorem claim_C10_empty_text_filter_witness :
    spanH ∈ findValidSpans [[1]] (some 1) ⟨['h']⟩ ⟨[0], [1], []⟩ 1 ∧
    spanH.text ≠ [] := by
  have hmem : spanH ∈ findValidSpans [[1]] (some 1) ⟨['h']⟩ ⟨[0], [1], []⟩ 1 := by
    norm_num [findValidSpans, resolveThreshold, mkCandidate, isValidPosition,
      spanEnd, resolveChar, tokensWindow, stripChars, pySlice, spanH,
      List.filterMap_cons, List.flatMap_cons, List.dropWhile_cons,
      show ('h'.isWhitespace = false) from by decide]
  exact ⟨hmem,
    claim_C10_empty_text_filter.1 [[1]] (some 1) ⟨['h']⟩ ⟨[0], [1], []⟩ 1 spanH hmem⟩

end GLiNERSwift
